import Mathlib

/-!
Verification of the timeout-budgeted page-retrieval workflow of
`src/endpoints.py` (routes `GET /`, `GET /health`, `POST /v1`).

The embedding models the handler `read_item` as a pure function of
  * the incoming `LinkRequest`, and
  * an `Env` describing one concrete behaviour of the external collaborators
    (browser capability, challenge solver, extraction function): how long each
    external call takes, what it returns, and whether the solver errors.

Time is measured in integer milliseconds from request entry.  The Python code
mixes seconds and milliseconds (`timer.remaining() * 1000` for Playwright,
`timer.remaining()` for `asyncio.wait_for`); both equal the remaining budget,
so the model keeps a single millisecond clock.

Semantics of the wait primitives, as the libraries that the source calls
document them:
  * Playwright waits (`page.goto`, `page.wait_for_load_state`) with
    `timeout = 0` DISABLE the timeout (wait indefinitely); with a positive
    timeout they raise `TimeoutError` when the operation takes longer.
  * `asyncio.wait_for` with timeout `t` raises `TimeoutError` whenever the
    awaited task needs longer than `t` (a non-positive `t` fails at once
    unless the task is already complete).

A run records, besides the handler's result, the trace of external calls with
the timeout bound each one received, and the total elapsed time.
-/

/-- Outcome of one bounded wait: completed after `spent` ms, or raised
`TimeoutError` after `spent` ms. -/
inductive WaitOutcome where
  | done (spent : Nat)
  | timeout (spent : Nat)
deriving DecidableEq

/-- Playwright-style wait: a zero timeout argument disables the limit; a
positive one raises a timeout once exceeded. `needed` is the time the
underlying operation requires. -/
def pwWait (needed bound : Nat) : WaitOutcome :=
  if bound = 0 then .done needed
  else if needed ≤ bound then .done needed
  else .timeout bound

/-- `asyncio.wait_for`-style wait: raises a timeout whenever the task needs
longer than the bound (zero bound included). -/
def aioWait (needed bound : Nat) : WaitOutcome :=
  if needed ≤ bound then .done needed else .timeout bound

def WaitOutcome.isDone : WaitOutcome → Bool
  | .done _ => true
  | .timeout _ => false

/-- Body of `POST /v1` (`src/models.py` is not among the sources; the fields
are the ones `endpoints.py` reads: `url`, `max_timeout`, `enable_readability`;
per spec §3 the budget is in seconds). -/
structure LinkRequest where
  url : String
  max_timeout : Nat
  enable_readability : Bool
deriving DecidableEq

/-- A browser cookie as returned by `context.cookies()`. -/
structure Cookie where
  name : String
  value : String
deriving DecidableEq

/-- Optional readability payload (`src/models.py`). -/
structure Readability where
  content : String
deriving DecidableEq

/-- The `solution` part of the response (`src/models.py`). -/
structure Solution where
  user_agent : String
  url : String
  status : Nat
  cookies : List Cookie
  headers : List (String × String)
  response : String
  readability : Option Readability
deriving DecidableEq

/-- The `POST /v1` response envelope (`src/models.py`). -/
structure LinkResponse where
  message : String
  solution : Solution
  start_timestamp : Nat
deriving DecidableEq

/-- The `GET /health` response (`src/models.py`). -/
structure HealthcheckResponse where
  user_agent : String
deriving DecidableEq

/-- Modelled from the spec: `TimeoutTimer` lives in `src/utils.py`, which is
not among the sources.  Spec §3/§4.1: the budget stores a deadline
`start + duration` and `remaining()` returns `max(deadline - now, 0)`, never
negative.  `duration` is in seconds (spec §3 `maxTimeoutSeconds`). -/
structure TimeoutTimer where
  duration : Nat
deriving DecidableEq

/-- Remaining budget in milliseconds after `elapsed` ms: truncated (hence
non-negative) subtraction, per spec §4.1. -/
def TimeoutTimer.remainingMs (t : TimeoutTimer) (elapsed : Nat) : Nat :=
  t.duration * 1000 - elapsed

/-- Modelled from the spec: `CHALLENGE_TITLES` lives in `src/consts.py`, which
is not among the sources.  Spec §4.3: a fixed, known set of exact
interstitial-challenge titles; the concrete members are unspecified, so the
list below stands for that fixed set. -/
def CHALLENGE_TITLES : List String :=
  ["Just a moment...", "Verifying you are human", "Checking your browser before accessing"]

/-- A navigation response object (`page.goto` may return `None`). -/
structure PageRequestObj where
  status : Nat
  headers : List (String × String)
deriving DecidableEq

/-- One concrete behaviour of the external collaborators during a request:
durations of the external calls (ms), the values they produce, and whether the
solver raises a non-timeout error. -/
structure Env where
  startMs : Nat
  mouseMoveMs : Nat
  jitterPauseMs : Nat
  gotoMs : Nat
  gotoResult : Option PageRequestObj
  domLoadMs : Nat
  netIdleMs : Nat
  titleMs : Nat
  pageTitle : String
  solveMs : Nat
  solverFails : Bool
  cookiesMs : Nat
  cookies : List Cookie
  contentMs : Nat
  pageContent : String
  evalMs : Nat
  userAgent : String
  finalUrl : String
  extract : String → Option String

/-- Kind of an external call issued by the handler; the solver call carries
the fixed parameters the source passes (`captcha_type`,
`wait_checkbox_attempts`, `wait_checkbox_delay` in ms). -/
inductive CallKind where
  | mouseMove
  | jitterPause
  | goto (url : String)
  | waitDom
  | waitNetIdle
  | titleQ
  | solve (captchaType : String) (attempts : Nat) (delayMs : Nat)
  | cookiesQ
  | contentQ
  | extractCall
  | evaluateUA
deriving DecidableEq

/-- An external call together with the timeout argument it was given
(`none` = the call site passes no timeout at all). -/
structure ExtCall where
  kind : CallKind
  bound : Option Nat
deriving DecidableEq

/-- Result of the handler: a returned response, a raised `HTTPException`, or
an exception that propagates uncaught (the solver's own errors). -/
inductive HandlerResult where
  | ok (resp : LinkResponse)
  | httpError (status : Nat) (detail : String)
  | uncaught (msg : String)
deriving DecidableEq

/-- A complete run: the handler's result, the trace of external calls in
order, and the total elapsed time in ms. -/
structure RunOutcome where
  result : HandlerResult
  calls : List ExtCall
  elapsedMs : Nat
deriving DecidableEq

/-- Python's `str.strip()` on a character list: drop whitespace from both
ends. -/
def pyStrip (l : List Char) : List Char :=
  ((l.dropWhile Char.isWhitespace).reverse.dropWhile Char.isWhitespace).reverse

/-- `request.url.replace('"', "").strip()` (line 62): every double-quote
character is removed, then surrounding whitespace is stripped. -/
def sanitizeUrl (s : String) : String :=
  String.mk (pyStrip (s.data.filter (fun c => c ≠ '"')))

/-- The timer built at request entry (line 60). -/
def timerOf (request : LinkRequest) : TimeoutTimer :=
  ⟨request.max_timeout⟩

/-- Time consumed by the anti-detection jitter (lines 64-65), which carries no
budget bound. -/
def jitterMs (env : Env) : Nat :=
  env.mouseMoveMs + env.jitterPauseMs

/-- Timeout argument passed to `page.goto` (line 68). -/
def gotoBound (env : Env) (request : LinkRequest) : Nat :=
  (timerOf request).remainingMs (jitterMs env)

/-- Outcome of the navigation wait. -/
def gotoOutcome (env : Env) (request : LinkRequest) : WaitOutcome :=
  pwWait env.gotoMs (gotoBound env request)

/-- Elapsed ms once navigation has succeeded. -/
def eAfterGoto (env : Env) : Nat :=
  jitterMs env + env.gotoMs

/-- `page_request.status if page_request else HTTPStatus.OK` (line 70). -/
def statusOf (env : Env) : Nat :=
  match env.gotoResult with
  | some pr => pr.status
  | none => 200

/-- `page_request.headers if page_request else {}` (line 120). -/
def headersOf (env : Env) : List (String × String) :=
  match env.gotoResult with
  | some pr => pr.headers
  | none => []

/-- Timeout argument passed to the `domcontentloaded` wait (line 72). -/
def domBound (env : Env) (request : LinkRequest) : Nat :=
  (timerOf request).remainingMs (eAfterGoto env)

/-- Outcome of the `domcontentloaded` wait. -/
def domOutcome (env : Env) (request : LinkRequest) : WaitOutcome :=
  pwWait env.domLoadMs (domBound env request)

/-- Elapsed ms once the `domcontentloaded` wait has succeeded. -/
def eAfterDom (env : Env) : Nat :=
  eAfterGoto env + env.domLoadMs

/-- Timeout argument passed to the `networkidle` wait (line 75). -/
def idleBound (env : Env) (request : LinkRequest) : Nat :=
  (timerOf request).remainingMs (eAfterDom env)

/-- Outcome of the `networkidle` wait. -/
def idleOutcome (env : Env) (request : LinkRequest) : WaitOutcome :=
  pwWait env.netIdleMs (idleBound env request)

/-- Elapsed ms once the `networkidle` wait has succeeded. -/
def eAfterIdle (env : Env) : Nat :=
  eAfterDom env + env.netIdleMs

/-- Elapsed ms once the (unbounded) title query has returned. -/
def eAfterTitle (env : Env) : Nat :=
  eAfterIdle env + env.titleMs

/-- Timeout argument passed to `asyncio.wait_for` around the solver
(line 88): the entire remaining budget. -/
def solveBound (env : Env) (request : LinkRequest) : Nat :=
  (timerOf request).remainingMs (eAfterTitle env)

/-- Outcome of the solver wait. -/
def solveOutcome (env : Env) (request : LinkRequest) : WaitOutcome :=
  aioWait env.solveMs (solveBound env request)

/-- The detail string of the timeout `HTTPException` (line 96). -/
def timeoutDetail : String := "Timed out while solving the challenge"

/-- The trace prefix up to and including the navigation call. -/
def navCalls (env : Env) (request : LinkRequest) : List ExtCall :=
  [⟨.mouseMove, none⟩, ⟨.jitterPause, none⟩,
   ⟨.goto (sanitizeUrl request.url), some (gotoBound env request)⟩]

/-- The solver call as issued at lines 81-89: fixed challenge type, one
checkbox attempt, 0.5 s checkbox delay, bounded by the whole remaining
budget. -/
def solveCall (env : Env) (request : LinkRequest) : ExtCall :=
  ⟨.solve "CLOUDFLARE_INTERSTITIAL" 1 500, some (solveBound env request)⟩

/-- The trace prefix once navigation, both load-state waits and the title
query have completed. -/
def preChallengeCalls (env : Env) (request : LinkRequest) : List ExtCall :=
  navCalls env request ++
    [⟨.waitDom, some (domBound env request)⟩,
     ⟨.waitNetIdle, some (idleBound env request)⟩, ⟨.titleQ, none⟩]

/-- The `readability` field of the response (lines 103-111): absent unless
extraction is enabled and yields content; the extraction input is the single
`page.content()` capture. -/
def readabilityOf (env : Env) (request : LinkRequest) : Option Readability :=
  if request.enable_readability then
    match env.extract env.pageContent with
    | some c => some ⟨c⟩
    | none => none
  else none

/-- Tail of the handler after the try-block (lines 99-125): cookie and content
queries, optional readability extraction, user-agent query, response
assembly. -/
def assemble (env : Env) (request : LinkRequest) (status : Nat) (e : Nat)
    (calls : List ExtCall) : RunOutcome :=
  let callsQ := calls ++ [⟨.cookiesQ, none⟩, ⟨.contentQ, none⟩]
  let callsR :=
    if request.enable_readability then callsQ ++ [⟨.extractCall, none⟩] else callsQ
  ⟨.ok ⟨"Success",
        ⟨env.userAgent, env.finalUrl, status, env.cookies, headersOf env,
         env.pageContent, readabilityOf env request⟩,
        env.startMs⟩,
    callsR ++ [⟨.evaluateUA, none⟩],
    e + env.cookiesMs + env.contentMs + env.evalMs⟩

/-- The `POST /v1` handler (lines 55-125), as a function of the collaborator
behaviour `env`.  `TimeoutError` from any bounded wait is caught and mapped to
`HTTPException(408, "Timed out while solving the challenge")` (lines 92-97); a
non-timeout solver error propagates uncaught. -/
def read_item (env : Env) (request : LinkRequest) : RunOutcome :=
  match gotoOutcome env request with
  | .timeout s =>
      ⟨.httpError 408 timeoutDetail, navCalls env request, jitterMs env + s⟩
  | .done _ =>
    match domOutcome env request with
    | .timeout s =>
        ⟨.httpError 408 timeoutDetail,
          navCalls env request ++ [⟨.waitDom, some (domBound env request)⟩],
          eAfterGoto env + s⟩
    | .done _ =>
      match idleOutcome env request with
      | .timeout s =>
          ⟨.httpError 408 timeoutDetail,
            navCalls env request ++ [⟨.waitDom, some (domBound env request)⟩,
              ⟨.waitNetIdle, some (idleBound env request)⟩],
            eAfterDom env + s⟩
      | .done _ =>
        if env.pageTitle ∈ CHALLENGE_TITLES then
          match solveOutcome env request with
          | .timeout s =>
              ⟨.httpError 408 timeoutDetail,
                preChallengeCalls env request ++ [solveCall env request],
                eAfterTitle env + s⟩
          | .done s =>
              if env.solverFails then
                ⟨.uncaught "solver error",
                  preChallengeCalls env request ++ [solveCall env request],
                  eAfterTitle env + s⟩
              else
                assemble env request 200 (eAfterTitle env + s)
                  (preChallengeCalls env request ++ [solveCall env request])
        else
          assemble env request (statusOf env) (eAfterTitle env)
            (preChallengeCalls env request)

/-- Modelled from the spec: the probe request of `GET /health` is built with
`LinkRequest.model_construct(url="https://google.com")`, taking the remaining
fields from `src/models.py` defaults which are not among the sources; spec §6
says "default budget", modelled as 60 s, with extraction off. -/
def probeRequest : LinkRequest :=
  ⟨"https://google.com", 60, false⟩

/-- Result of the `GET /health` handler. -/
inductive HealthResult where
  | ok (resp : HealthcheckResponse)
  | httpError (status : Nat) (detail : String)
  | uncaught (msg : String)
deriving DecidableEq

/-- The `GET /health` handler (lines 38-52): runs the probe through
`read_item`; raises `HTTPException(500, "Health check failed")` when the
probe's solution status is not `HTTPStatus.OK`; otherwise returns the probe's
user agent.  Exceptions from `read_item` propagate. -/
def health_check (env : Env) : HealthResult :=
  match (read_item env probeRequest).result with
  | .ok resp =>
      if resp.solution.status ≠ 200 then .httpError 500 "Health check failed"
      else .ok ⟨resp.solution.user_agent⟩
  | .httpError s d => .httpError s d
  | .uncaught m => .uncaught m

def HandlerResult.isOk : HandlerResult → Bool
  | .ok _ => true
  | _ => false

def CallKind.isGoto : CallKind → Bool
  | .goto _ => true
  | _ => false

def CallKind.isSolve : CallKind → Bool
  | .solve _ _ _ => true
  | _ => false

/-- Number of solver invocations recorded in a run's trace. -/
def solveCount (env : Env) (request : LinkRequest) : Nat :=
  (read_item env request).calls.countP (fun c => c.kind.isSolve)

/-- Navigation and both load-state waits completed: the handler reaches the
challenge check of line 78. -/
def reachesChallengeCheck (env : Env) (request : LinkRequest) : Bool :=
  (gotoOutcome env request).isDone && (domOutcome env request).isDone &&
    (idleOutcome env request).isDone

/-- Some bounded wait of the run raised `TimeoutError`. -/
def runTimedOut (env : Env) (request : LinkRequest) : Bool :=
  !(gotoOutcome env request).isDone ||
    !(domOutcome env request).isDone ||
      !(idleOutcome env request).isDone ||
        (decide (env.pageTitle ∈ CHALLENGE_TITLES) &&
          !(solveOutcome env request).isDone)

/-- The run reaches the post-try tail (lines 99-125): all load waits
succeeded and, when a challenge was detected, the solver completed in budget
without raising.  Note this predicate does not mention the extraction
function. -/
def reachesAssembly (env : Env) (request : LinkRequest) : Bool :=
  reachesChallengeCheck env request &&
    (!(decide (env.pageTitle ∈ CHALLENGE_TITLES)) ||
      ((solveOutcome env request).isDone && !env.solverFails))

/-- No stage is issued twice: each bounded wait kind occurs at most once in
the trace. -/
def noRetry (env : Env) (request : LinkRequest) : Prop :=
  ((read_item env request).calls.countP (fun c => c.kind.isGoto) ≤ 1) ∧
  ((read_item env request).calls.countP
    (fun c => decide (c.kind = CallKind.waitDom)) ≤ 1) ∧
  ((read_item env request).calls.countP
    (fun c => decide (c.kind = CallKind.waitNetIdle)) ≤ 1) ∧
  ((read_item env request).calls.countP (fun c => c.kind.isSolve) ≤ 1)

/-- The timeout bound each call kind is given by the source: the remaining
budget for navigation, the two load-state waits and the solver wait; no bound
at all for the jitter and the title/cookie/content/user-agent/extraction
calls. -/
def boundSpec (env : Env) (request : LinkRequest) : CallKind → Option Nat
  | .goto _ => some (gotoBound env request)
  | .waitDom => some (domBound env request)
  | .waitNetIdle => some (idleBound env request)
  | .solve _ _ _ => some (solveBound env request)
  | _ => none

/-- The claim's reading of URL sanitization, written from the spec's words
(§3): strip SURROUNDING quote characters and surrounding whitespace, leaving
interior characters alone.  Compared against `sanitizeUrl`, which embeds the
source's `replace('"', "").strip()`. -/
def stripSurrounding (s : String) : String :=
  String.mk
    (((s.data.dropWhile (fun c => c = '"' || c.isWhitespace)).reverse.dropWhile
      (fun c => c = '"' || c.isWhitespace)).reverse)

/-- A collaborator behaviour where every stage succeeds well within budget,
the page title is not a challenge title, and extraction yields nothing. -/
def envOk : Env :=
  { startMs := 5
    mouseMoveMs := 10
    jitterPauseMs := 200
    gotoMs := 400
    gotoResult := some ⟨200, [("content-type", "text/html")]⟩
    domLoadMs := 100
    netIdleMs := 100
    titleMs := 10
    pageTitle := "Example Domain"
    solveMs := 0
    solverFails := false
    cookiesMs := 5
    cookies := [⟨"a", "b"⟩]
    contentMs := 5
    pageContent := "<html>hi</html>"
    evalMs := 5
    userAgent := "Mozilla/5.0"
    finalUrl := "https://example.com/"
    extract := fun _ => none }

def reqOk : LinkRequest := ⟨"https://example.com", 30, false⟩

/-- Like `envOk` but navigation needs far longer than the budget. -/
def envTO : Env := { envOk with gotoMs := 1000000000 }

/-- Like `envOk` but the loaded page is a challenge interstitial reached via a
503 navigation response, and the solver succeeds quickly. -/
def envCh : Env :=
  { envOk with
    pageTitle := "Just a moment..."
    gotoResult := some ⟨503, []⟩
    solveMs := 100 }

/-- A behaviour in which navigation consumes the entire 1 s budget exactly, so
the `domcontentloaded` wait is issued with `remaining() == 0` and then takes
5 s. -/
def envC2 : Env :=
  { envOk with
    mouseMoveMs := 0
    jitterPauseMs := 300
    gotoMs := 700
    domLoadMs := 5000
    netIdleMs := 0
    titleMs := 0
    cookiesMs := 0
    contentMs := 0
    evalMs := 0 }

def reqC2 : LinkRequest := ⟨"https://example.com", 1, false⟩

/-- Like `envOk` but the unbounded `page.content()` query takes far longer
than the whole budget. -/
def envC5 : Env := { envOk with contentMs := 1000000000 }

/-- A request whose URL carries an interior double quote. -/
def reqC9 : LinkRequest := ⟨"https://x.example/a\"b", 30, false⟩

/-- A request with readability extraction enabled. -/
def reqRead : LinkRequest := ⟨"https://example.com", 30, true⟩

/-- Like `envOk` but extraction yields content derived from the captured
HTML. -/
def envRead : Env :=
  { envOk with extract := fun s => some ("X" ++ s) }

/-- The response the probe of `GET /health` yields under `envOk`. -/
def respProbe : LinkResponse :=
  ⟨"Success",
    ⟨"Mozilla/5.0", "https://example.com/", 200, [⟨"a", "b"⟩],
      [("content-type", "text/html")], "<html>hi</html>", none⟩,
    5⟩

/-- The response `read_item` yields under `envRead` with extraction on. -/
def respRead : LinkResponse :=
  ⟨"Success",
    ⟨"Mozilla/5.0", "https://example.com/", 200, [⟨"a", "b"⟩],
      [("content-type", "text/html")], "<html>hi</html>",
      some ⟨"X<html>hi</html>"⟩⟩,
    5⟩

/-- Run shape when navigation times out. -/
lemma run_goto_timeout {env : Env} {request : LinkRequest} {s : Nat}
    (h : gotoOutcome env request = .timeout s) :
    read_item env request =
      ⟨.httpError 408 timeoutDetail, navCalls env request, jitterMs env + s⟩ := by
  unfold read_item
  rw [h]

/-- Run shape when the `domcontentloaded` wait times out. -/
lemma run_dom_timeout {env : Env} {request : LinkRequest} {s₁ s : Nat}
    (hg : gotoOutcome env request = .done s₁)
    (h : domOutcome env request = .timeout s) :
    read_item env request =
      ⟨.httpError 408 timeoutDetail,
        navCalls env request ++ [⟨.waitDom, some (domBound env request)⟩],
        eAfterGoto env + s⟩ := by
  unfold read_item
  rw [hg, h]

/-- Run shape when the `networkidle` wait times out. -/
lemma run_idle_timeout {env : Env} {request : LinkRequest} {s₁ s₂ s : Nat}
    (hg : gotoOutcome env request = .done s₁)
    (hd : domOutcome env request = .done s₂)
    (h : idleOutcome env request = .timeout s) :
    read_item env request =
      ⟨.httpError 408 timeoutDetail,
        navCalls env request ++ [⟨.waitDom, some (domBound env request)⟩,
          ⟨.waitNetIdle, some (idleBound env request)⟩],
        eAfterDom env + s⟩ := by
  unfold read_item
  rw [hg, hd, h]

/-- Run shape when all load waits succeed and the title is not a challenge
title. -/
lemma run_no_challenge {env : Env} {request : LinkRequest} {s₁ s₂ s₃ : Nat}
    (hg : gotoOutcome env request = .done s₁)
    (hd : domOutcome env request = .done s₂)
    (hi : idleOutcome env request = .done s₃)
    (ht : env.pageTitle ∉ CHALLENGE_TITLES) :
    read_item env request =
      assemble env request (statusOf env) (eAfterTitle env)
        (preChallengeCalls env request) := by
  unfold read_item
  rw [hg, hd, hi, if_neg ht]

/-- Run shape when a challenge is detected and the solver wait times out. -/
lemma run_solve_timeout {env : Env} {request : LinkRequest} {s₁ s₂ s₃ s : Nat}
    (hg : gotoOutcome env request = .done s₁)
    (hd : domOutcome env request = .done s₂)
    (hi : idleOutcome env request = .done s₃)
    (ht : env.pageTitle ∈ CHALLENGE_TITLES)
    (h : solveOutcome env request = .timeout s) :
    read_item env request =
      ⟨.httpError 408 timeoutDetail,
        preChallengeCalls env request ++ [solveCall env request],
        eAfterTitle env + s⟩ := by
  unfold read_item
  rw [hg, hd, hi, if_pos ht, h]

/-- Run shape when a challenge is detected and the solver completes in budget
but raises its own error. -/
lemma run_solver_error {env : Env} {request : LinkRequest} {s₁ s₂ s₃ s : Nat}
    (hg : gotoOutcome env request = .done s₁)
    (hd : domOutcome env request = .done s₂)
    (hi : idleOutcome env request = .done s₃)
    (ht : env.pageTitle ∈ CHALLENGE_TITLES)
    (h : solveOutcome env request = .done s)
    (hf : env.solverFails = true) :
    read_item env request =
      ⟨.uncaught "solver error",
        preChallengeCalls env request ++ [solveCall env request],
        eAfterTitle env + s⟩ := by
  unfold read_item
  rw [hg, hd, hi, h]
  simp [ht, hf]

/-- Run shape when a challenge is detected and solved within budget. -/
lemma run_solved {env : Env} {request : LinkRequest} {s₁ s₂ s₃ s : Nat}
    (hg : gotoOutcome env request = .done s₁)
    (hd : domOutcome env request = .done s₂)
    (hi : idleOutcome env request = .done s₃)
    (ht : env.pageTitle ∈ CHALLENGE_TITLES)
    (h : solveOutcome env request = .done s)
    (hf : env.solverFails = false) :
    read_item env request =
      assemble env request 200 (eAfterTitle env + s)
        (preChallengeCalls env request ++ [solveCall env request]) := by
  unfold read_item
  rw [hg, hd, hi, h]
  simp [ht, hf]

/-- The result assembled after the try-block is always a success response. -/
lemma assemble_result (env : Env) (request : LinkRequest) (status e : Nat)
    (calls : List ExtCall) :
    (assemble env request status e calls).result =
      .ok ⟨"Success",
            ⟨env.userAgent, env.finalUrl, status, env.cookies, headersOf env,
             env.pageContent, readabilityOf env request⟩,
            env.startMs⟩ := rfl

/-- Trace of a run that reaches the try-block's tail. -/
lemma assemble_calls (env : Env) (request : LinkRequest) (status e : Nat)
    (calls : List ExtCall) :
    (assemble env request status e calls).calls =
      calls ++ [⟨.cookiesQ, none⟩, ⟨.contentQ, none⟩] ++
        (if request.enable_readability then [⟨.extractCall, none⟩] else []) ++
        [⟨.evaluateUA, none⟩] := by
  cases hE : request.enable_readability <;> simp [assemble, hE]

/-- C1 counterexample input: under `envC2`/`reqC2` the `domcontentloaded`
stage needs 5000 ms while the remaining budget is 0 ms — the stage exceeds the
remaining TimeoutBudget — yet the handler does not fail with 408 (Playwright
treats the timeout argument `0` as "no timeout", so the wait simply
blocks until it completes). -/
theorem C1_counterexample :
    envC2.domLoadMs > domBound envC2 reqC2 ∧
    (read_item envC2 reqC2).result ≠
      HandlerResult.httpError 408 timeoutDetail := by
  constructor
  · decide
  · decide

/-- C1 (amended): whenever a bounded wait of the workflow raises a timeout —
navigation, a load-state wait given a positive remaining budget, or the
solver wait — and only then, the handler fails with HTTP 408 and the exact
detail "Timed out while solving the challenge"; 408 with that detail is the
only `HTTPException` the handler ever raises (other failures propagate
unmodified), and no stage is retried.  (When the remaining budget is already
0, a Playwright wait is issued with timeout 0, which disables the limit, so
no timeout is raised there — the corner `C1_counterexample` exhibits.) -/
theorem C1_thm (env : Env) (request : LinkRequest) :
    ((read_item env request).result = HandlerResult.httpError 408 timeoutDetail ↔
      runTimedOut env request = true) ∧
    (∀ s d, (read_item env request).result = HandlerResult.httpError s d →
      s = 408 ∧ d = timeoutDetail) ∧
    noRetry env request := by
  unfold noRetry
  rcases hg : gotoOutcome env request with s₁ | s₁
  · rcases hd : domOutcome env request with s₂ | s₂
    · rcases hi : idleOutcome env request with s₃ | s₃
      · by_cases ht : env.pageTitle ∈ CHALLENGE_TITLES
        · rcases hs : solveOutcome env request with s₄ | s₄
          · cases hf : env.solverFails
            · rw [run_solved hg hd hi ht hs hf]
              cases hE : request.enable_readability <;>
                simp [runTimedOut, hg, hd, hi, hs, ht, hE, WaitOutcome.isDone,
                  assemble_result, assemble_calls, preChallengeCalls, navCalls,
                  solveCall, List.countP_append, List.countP_cons,
                  CallKind.isGoto, CallKind.isSolve]
            · rw [run_solver_error hg hd hi ht hs hf]
              simp [runTimedOut, hg, hd, hi, hs, ht, WaitOutcome.isDone,
                preChallengeCalls, navCalls, solveCall, List.countP_append,
                List.countP_cons, CallKind.isGoto, CallKind.isSolve]
          · rw [run_solve_timeout hg hd hi ht hs]
            simp [runTimedOut, hg, hd, hi, hs, ht, WaitOutcome.isDone,
              preChallengeCalls, navCalls, solveCall, List.countP_append,
              List.countP_cons, CallKind.isGoto, CallKind.isSolve]
        · rw [run_no_challenge hg hd hi ht]
          cases hE : request.enable_readability <;>
            simp [runTimedOut, hg, hd, hi, ht, hE, WaitOutcome.isDone,
              assemble_result, assemble_calls, preChallengeCalls, navCalls,
              List.countP_append, List.countP_cons, CallKind.isGoto,
              CallKind.isSolve]
      · rw [run_idle_timeout hg hd hi]
        simp [runTimedOut, hg, hd, hi, WaitOutcome.isDone, navCalls,
          List.countP_append, List.countP_cons, CallKind.isGoto,
          CallKind.isSolve]
    · rw [run_dom_timeout hg hd]
      simp [runTimedOut, hg, hd, WaitOutcome.isDone, navCalls,
        List.countP_append, List.countP_cons, CallKind.isGoto,
        CallKind.isSolve]
  · rw [run_goto_timeout hg]
    simp [runTimedOut, hg, WaitOutcome.isDone, navCalls, List.countP_cons,
      CallKind.isGoto, CallKind.isSolve]

/-- C1 witness: under `envTO` (navigation needs 10^9 ms against a 30 s
budget) the handler fails with 408 and the exact timeout detail. -/
theorem C1_witness :
    (read_item envTO reqOk).result =
      HandlerResult.httpError 408 timeoutDetail :=
  (C1_thm envTO reqOk).1.mpr (by decide)

/-- C2 failing input, evaluated: under `envC2`/`reqC2` (1 s budget, 300 ms
jitter, navigation consuming exactly the remaining 700 ms) the
`domcontentloaded` stage finds `remaining() == 0`, yet the handler does NOT
short-circuit to a timeout failure: it issues the wait with timeout argument
`0` (which the wait primitive treats as "no limit"), the request blocks to
6000 ms — far past the 1000 ms deadline — and completes without the 408. -/
theorem C2_code_eval :
    domBound envC2 reqC2 = 0 ∧
    (⟨CallKind.waitDom, some 0⟩ : ExtCall) ∈ (read_item envC2 reqC2).calls ∧
    (read_item envC2 reqC2).elapsedMs > reqC2.max_timeout * 1000 ∧
    (read_item envC2 reqC2).result ≠
      HandlerResult.httpError 408 timeoutDetail := by
  refine ⟨by decide, by decide, by decide, by decide⟩

/-- C3: the solver capability is invoked at most once per request; when the
run reaches the challenge check it is invoked exactly once if and only if the
page title is a member of the fixed challenge-title set; and every solver
invocation in the trace carries the fixed parameters (challenge type
`CLOUDFLARE_INTERSTITIAL`, one checkbox attempt, 500 ms checkbox delay) and is
bounded by the entire remaining TimeoutBudget. -/
theorem C3_thm (env : Env) (request : LinkRequest) :
    solveCount env request ≤ 1 ∧
    (reachesChallengeCheck env request = true →
      solveCount env request =
        if env.pageTitle ∈ CHALLENGE_TITLES then 1 else 0) ∧
    (∀ c ∈ (read_item env request).calls, c.kind.isSolve = true →
      c = ⟨.solve "CLOUDFLARE_INTERSTITIAL" 1 500,
            some (solveBound env request)⟩) := by
  unfold solveCount
  rcases hg : gotoOutcome env request with s₁ | s₁
  · rcases hd : domOutcome env request with s₂ | s₂
    · rcases hi : idleOutcome env request with s₃ | s₃
      · by_cases ht : env.pageTitle ∈ CHALLENGE_TITLES
        · rcases hs : solveOutcome env request with s₄ | s₄
          · cases hf : env.solverFails
            · rw [run_solved hg hd hi ht hs hf]
              cases hE : request.enable_readability <;>
                simp [reachesChallengeCheck, hg, hd, hi, ht, hE,
                  WaitOutcome.isDone, assemble_calls, preChallengeCalls,
                  navCalls, solveCall, List.countP_append, List.countP_cons,
                  CallKind.isSolve, List.forall_mem_append,
                  List.forall_mem_cons]
            · rw [run_solver_error hg hd hi ht hs hf]
              simp [reachesChallengeCheck, hg, hd, hi, ht, WaitOutcome.isDone,
                preChallengeCalls, navCalls, solveCall, List.countP_append,
                List.countP_cons, CallKind.isSolve, List.forall_mem_append,
                List.forall_mem_cons]
          · rw [run_solve_timeout hg hd hi ht hs]
            simp [reachesChallengeCheck, hg, hd, hi, ht, WaitOutcome.isDone,
              preChallengeCalls, navCalls, solveCall, List.countP_append,
              List.countP_cons, CallKind.isSolve, List.forall_mem_append,
              List.forall_mem_cons]
        · rw [run_no_challenge hg hd hi ht]
          cases hE : request.enable_readability <;>
            simp [reachesChallengeCheck, hg, hd, hi, ht, hE,
              WaitOutcome.isDone, assemble_calls, preChallengeCalls, navCalls,
              List.countP_append, List.countP_cons, CallKind.isSolve,
              List.forall_mem_append, List.forall_mem_cons]
      · rw [run_idle_timeout hg hd hi]
        simp [reachesChallengeCheck, hg, hd, hi, WaitOutcome.isDone, navCalls,
          List.countP_append, List.countP_cons, CallKind.isSolve,
          List.forall_mem_append, List.forall_mem_cons]
    · rw [run_dom_timeout hg hd]
      simp [reachesChallengeCheck, hg, hd, WaitOutcome.isDone, navCalls,
        List.countP_append, List.countP_cons, CallKind.isSolve,
        List.forall_mem_append, List.forall_mem_cons]
  · rw [run_goto_timeout hg]
    simp [reachesChallengeCheck, hg, WaitOutcome.isDone, navCalls,
      List.countP_cons, CallKind.isSolve, List.forall_mem_cons]

/-- C3 witness: under `envCh` (challenge title, everything in budget) the
solver is invoked exactly once. -/
theorem C3_witness :
    solveCount envCh reqOk =
      if envCh.pageTitle ∈ CHALLENGE_TITLES then 1 else 0 :=
  (C3_thm envCh reqOk).2.1 (by decide)

/-- C4: whenever a challenge is detected and the solver completes within the
remaining budget (without raising), the returned solution's status is forced
to 200 OK — the original navigation status (`statusOf env`, whatever it was)
does not appear in the response. -/
theorem C4_thm (env : Env) (request : LinkRequest)
    (hr : reachesChallengeCheck env request = true)
    (ht : env.pageTitle ∈ CHALLENGE_TITLES)
    (hs : (solveOutcome env request).isDone = true)
    (hf : env.solverFails = false) :
    (read_item env request).result =
      HandlerResult.ok
        ⟨"Success",
          ⟨env.userAgent, env.finalUrl, 200, env.cookies, headersOf env,
           env.pageContent, readabilityOf env request⟩,
          env.startMs⟩ := by
  rcases hg : gotoOutcome env request with s₁ | s₁
  · rcases hd : domOutcome env request with s₂ | s₂
    · rcases hi : idleOutcome env request with s₃ | s₃
      · rcases hs4 : solveOutcome env request with s₄ | s₄
        · rw [run_solved hg hd hi ht hs4 hf, assemble_result]
        · rw [hs4] at hs
          simp [WaitOutcome.isDone] at hs
      · simp [reachesChallengeCheck, hg, hd, hi, WaitOutcome.isDone] at hr
    · simp [reachesChallengeCheck, hg, hd, WaitOutcome.isDone] at hr
  · simp [reachesChallengeCheck, hg, WaitOutcome.isDone] at hr

/-- C4 witness: under `envCh` the navigation response carried status 503, the
challenge was solved, and the response reports status 200. -/
theorem C4_witness :
    (read_item envCh reqOk).result =
      HandlerResult.ok
        ⟨"Success",
          ⟨envCh.userAgent, envCh.finalUrl, 200, envCh.cookies,
           headersOf envCh, envCh.pageContent, readabilityOf envCh reqOk⟩,
          envCh.startMs⟩ :=
  C4_thm envCh reqOk (by decide) (by decide) (by decide) (by decide)

/-- C5 counterexample input: under `envC5` the unbounded `page.content()`
query takes 10^9 ms; the trace shows it is issued with no timeout argument at
all, the request blocks far past the 30 s deadline, and still completes —
refuting the claim that every post-jitter suspension point is bounded by the
TimeoutBudget. -/
theorem C5_counterexample :
    (⟨CallKind.contentQ, none⟩ : ExtCall) ∈ (read_item envC5 reqOk).calls ∧
    (read_item envC5 reqOk).elapsedMs > reqOk.max_timeout * 1000 ∧
    (read_item envC5 reqOk).result ≠
      HandlerResult.httpError 408 timeoutDetail := by
  refine ⟨by decide, by decide, by decide⟩

/-- C5 (amended): exactly the navigation, the two load-state waits and the
solver call receive the remaining TimeoutBudget as their timeout argument;
the jitter and the title, cookie, content, extraction and user-agent calls
are issued with no budget bound at all. -/
theorem C5_thm (env : Env) (request : LinkRequest) :
    ∀ c ∈ (read_item env request).calls,
      c.bound = boundSpec env request c.kind := by
  rcases hg : gotoOutcome env request with s₁ | s₁
  · rcases hd : domOutcome env request with s₂ | s₂
    · rcases hi : idleOutcome env request with s₃ | s₃
      · by_cases ht : env.pageTitle ∈ CHALLENGE_TITLES
        · rcases hs : solveOutcome env request with s₄ | s₄
          · cases hf : env.solverFails
            · rw [run_solved hg hd hi ht hs hf]
              cases hE : request.enable_readability <;>
                simp [assemble_calls, hE, preChallengeCalls, navCalls,
                  solveCall, boundSpec, List.forall_mem_append,
                  List.forall_mem_cons]
            · rw [run_solver_error hg hd hi ht hs hf]
              simp [preChallengeCalls, navCalls, solveCall, boundSpec,
                List.forall_mem_append, List.forall_mem_cons]
          · rw [run_solve_timeout hg hd hi ht hs]
            simp [preChallengeCalls, navCalls, solveCall, boundSpec,
              List.forall_mem_append, List.forall_mem_cons]
        · rw [run_no_challenge hg hd hi ht]
          cases hE : request.enable_readability <;>
            simp [assemble_calls, hE, preChallengeCalls, navCalls, boundSpec,
              List.forall_mem_append, List.forall_mem_cons]
      · rw [run_idle_timeout hg hd hi]
        simp [navCalls, boundSpec, List.forall_mem_append,
          List.forall_mem_cons]
    · rw [run_dom_timeout hg hd]
      simp [navCalls, boundSpec, List.forall_mem_append, List.forall_mem_cons]
  · rw [run_goto_timeout hg]
    simp [navCalls, boundSpec, List.forall_mem_cons]

/-- C5 witness: the `networkidle` wait of the `envOk` run carries exactly the
bound `boundSpec` prescribes (the remaining budget at that point). -/
theorem C5_witness :
    (⟨CallKind.waitNetIdle, some (idleBound envOk reqOk)⟩ : ExtCall).bound =
      boundSpec envOk reqOk CallKind.waitNetIdle :=
  C5_thm envOk reqOk ⟨CallKind.waitNetIdle, some (idleBound envOk reqOk)⟩
    (by decide)

/-- C6: with `enable_readability = false` the extraction function is never
called (no extraction call in the trace) and the returned solution's
`readability` is absent. -/
theorem C6_thm (env : Env) (request : LinkRequest)
    (h : request.enable_readability = false) :
    (read_item env request).calls.countP
      (fun c => decide (c.kind = CallKind.extractCall)) = 0 ∧
    (∀ resp, (read_item env request).result = HandlerResult.ok resp →
      resp.solution.readability = none) := by
  rcases hg : gotoOutcome env request with s₁ | s₁
  · rcases hd : domOutcome env request with s₂ | s₂
    · rcases hi : idleOutcome env request with s₃ | s₃
      · by_cases ht : env.pageTitle ∈ CHALLENGE_TITLES
        · rcases hs : solveOutcome env request with s₄ | s₄
          · cases hf : env.solverFails
            · rw [run_solved hg hd hi ht hs hf]
              simp [assemble_calls, assemble_result, h, readabilityOf,
                preChallengeCalls, navCalls, solveCall, List.countP_append,
                List.countP_cons]
            · rw [run_solver_error hg hd hi ht hs hf]
              simp [preChallengeCalls, navCalls, solveCall,
                List.countP_append, List.countP_cons]
          · rw [run_solve_timeout hg hd hi ht hs]
            simp [preChallengeCalls, navCalls, solveCall, List.countP_append,
              List.countP_cons]
        · rw [run_no_challenge hg hd hi ht]
          simp [assemble_calls, assemble_result, h, readabilityOf,
            preChallengeCalls, navCalls, List.countP_append, List.countP_cons]
      · rw [run_idle_timeout hg hd hi]
        simp [navCalls, List.countP_append, List.countP_cons]
    · rw [run_dom_timeout hg hd]
      simp [navCalls, List.countP_append, List.countP_cons]
  · rw [run_goto_timeout hg]
    simp [navCalls, List.countP_cons]

/-- C6 witness: the `envOk`/`reqOk` run (extraction disabled) contains no
extraction call. -/
theorem C6_witness :
    (read_item envOk reqOk).calls.countP
      (fun c => decide (c.kind = CallKind.extractCall)) = 0 :=
  (C6_thm envOk reqOk rfl).1

/-- C7: with extraction enabled and the extraction function yielding nothing,
any returned response has `readability` absent and message "Success"; and
whether the handler succeeds at all is `reachesAssembly`, a predicate that
does not mention the extraction function — empty extraction can never turn a
run into a failure. -/
theorem C7_thm (env : Env) (request : LinkRequest)
    (hE : request.enable_readability = true)
    (hx : env.extract env.pageContent = none) :
    (∀ resp, (read_item env request).result = HandlerResult.ok resp →
      resp.solution.readability = none ∧ resp.message = "Success") ∧
    (read_item env request).result.isOk = reachesAssembly env request := by
  rcases hg : gotoOutcome env request with s₁ | s₁
  · rcases hd : domOutcome env request with s₂ | s₂
    · rcases hi : idleOutcome env request with s₃ | s₃
      · by_cases ht : env.pageTitle ∈ CHALLENGE_TITLES
        · rcases hs : solveOutcome env request with s₄ | s₄
          · cases hf : env.solverFails
            · rw [run_solved hg hd hi ht hs hf]
              simp [assemble_result, readabilityOf, hE, hx,
                HandlerResult.isOk, reachesAssembly, reachesChallengeCheck,
                hg, hd, hi, hs, ht, hf, WaitOutcome.isDone]
            · rw [run_solver_error hg hd hi ht hs hf]
              simp [HandlerResult.isOk, reachesAssembly,
                reachesChallengeCheck, hg, hd, hi, hs, ht, hf,
                WaitOutcome.isDone]
          · rw [run_solve_timeout hg hd hi ht hs]
            simp [HandlerResult.isOk, reachesAssembly, reachesChallengeCheck,
              hg, hd, hi, hs, ht, WaitOutcome.isDone]
        · rw [run_no_challenge hg hd hi ht]
          simp [assemble_result, readabilityOf, hE, hx, HandlerResult.isOk,
            reachesAssembly, reachesChallengeCheck, hg, hd, hi, ht,
            WaitOutcome.isDone]
      · rw [run_idle_timeout hg hd hi]
        simp [HandlerResult.isOk, reachesAssembly, reachesChallengeCheck,
          hg, hd, hi, WaitOutcome.isDone]
    · rw [run_dom_timeout hg hd]
      simp [HandlerResult.isOk, reachesAssembly, reachesChallengeCheck,
        hg, hd, WaitOutcome.isDone]
  · rw [run_goto_timeout hg]
    simp [HandlerResult.isOk, reachesAssembly, reachesChallengeCheck, hg,
      WaitOutcome.isDone]

/-- C7 witness: under `envOk` with extraction enabled (and yielding nothing)
the run still succeeds, as `reachesAssembly` prescribes. -/
theorem C7_witness :
    (read_item envOk reqRead).result.isOk = reachesAssembly envOk reqRead :=
  (C7_thm envOk reqRead rfl rfl).2

/-- C8: the health probe targets "https://google.com" through the same
workflow; when the probe returns a response, `GET /health` raises 500 with
detail "Health check failed" exactly when the probe's solution status is not
200, and otherwise returns the probe's resolved user agent. -/
theorem C8_thm (env : Env) (resp : LinkResponse)
    (h : (read_item env probeRequest).result = HandlerResult.ok resp) :
    probeRequest.url = "https://google.com" ∧
    (health_check env = HealthResult.httpError 500 "Health check failed" ↔
      resp.solution.status ≠ 200) ∧
    (resp.solution.status = 200 →
      health_check env = HealthResult.ok ⟨resp.solution.user_agent⟩) := by
  refine ⟨rfl, ?_, ?_⟩
  · unfold health_check
    rw [h]
    by_cases hst : resp.solution.status = 200
    · simp [hst]
    · simp [hst]
  · intro hst
    unfold health_check
    rw [h]
    simp [hst]

/-- C8 witness: under `envOk` the probe succeeds with status 200 and the
health check returns its user agent. -/
theorem C8_witness :
    health_check envOk = HealthResult.ok ⟨respProbe.solution.user_agent⟩ :=
  (C8_thm envOk respProbe (by decide)).2.2 (by decide)

/-- C9 counterexample input: the URL "https://x.example/a\"b" has no
SURROUNDING quote characters and no surrounding whitespace, so under the
claim it would be used unchanged; the code instead removes the INTERIOR
double quote and navigates to "https://x.example/ab". -/
theorem C9_counterexample :
    stripSurrounding reqC9.url = reqC9.url ∧
    (⟨CallKind.goto reqC9.url, some (gotoBound envOk reqC9)⟩ : ExtCall) ∉
      (read_item envOk reqC9).calls ∧
    (⟨CallKind.goto "https://x.example/ab",
        some (gotoBound envOk reqC9)⟩ : ExtCall) ∈
      (read_item envOk reqC9).calls := by
  refine ⟨by decide, by decide, by decide⟩

/-- C9 (amended): the URL is sanitized by removing EVERY double-quote
character (interior ones included) and stripping surrounding whitespace; the
sanitized URL is the one passed to navigation; and a URL with no double-quote
characters and no surrounding whitespace is used unchanged. -/
theorem C9_thm (env : Env) (request : LinkRequest) :
    (∀ c ∈ (read_item env request).calls, c.kind.isGoto = true →
      c.kind = CallKind.goto (sanitizeUrl request.url)) ∧
    (∀ s : String, '"' ∉ s.data → pyStrip s.data = s.data →
      sanitizeUrl s = s) := by
  constructor
  · rcases hg : gotoOutcome env request with s₁ | s₁
    · rcases hd : domOutcome env request with s₂ | s₂
      · rcases hi : idleOutcome env request with s₃ | s₃
        · by_cases ht : env.pageTitle ∈ CHALLENGE_TITLES
          · rcases hs : solveOutcome env request with s₄ | s₄
            · cases hf : env.solverFails
              · rw [run_solved hg hd hi ht hs hf]
                cases hE : request.enable_readability <;>
                  simp [assemble_calls, hE, preChallengeCalls, navCalls,
                    solveCall, CallKind.isGoto, List.forall_mem_append,
                    List.forall_mem_cons]
              · rw [run_solver_error hg hd hi ht hs hf]
                simp [preChallengeCalls, navCalls, solveCall,
                  CallKind.isGoto, List.forall_mem_append,
                  List.forall_mem_cons]
            · rw [run_solve_timeout hg hd hi ht hs]
              simp [preChallengeCalls, navCalls, solveCall, CallKind.isGoto,
                List.forall_mem_append, List.forall_mem_cons]
          · rw [run_no_challenge hg hd hi ht]
            cases hE : request.enable_readability <;>
              simp [assemble_calls, hE, preChallengeCalls, navCalls,
                CallKind.isGoto, List.forall_mem_append,
                List.forall_mem_cons]
        · rw [run_idle_timeout hg hd hi]
          simp [navCalls, CallKind.isGoto, List.forall_mem_append,
            List.forall_mem_cons]
      · rw [run_dom_timeout hg hd]
        simp [navCalls, CallKind.isGoto, List.forall_mem_append,
          List.forall_mem_cons]
    · rw [run_goto_timeout hg]
      simp [navCalls, CallKind.isGoto, List.forall_mem_cons]
  · intro s hq hw
    unfold sanitizeUrl
    have hfil : s.data.filter (fun c => c ≠ '"') = s.data := by
      rw [List.filter_eq_self]
      intro a ha
      have : a ≠ '"' := fun h' => hq (h' ▸ ha)
      simpa using this
    rw [hfil, hw]

/-- C9 witness: a quote-free, whitespace-free URL passes through
sanitization unchanged. -/
theorem C9_witness :
    sanitizeUrl "https://example.com" = "https://example.com" :=
  (C9_thm envOk reqOk).2 "https://example.com" (by decide) (by decide)

/-- C10: every returned response carries the message "Success", and when
`readability` is present its content is the extraction function applied to
the very HTML string returned as `solution.response` (both derive from the
single `page.content()` capture). -/
theorem C10_thm (env : Env) (request : LinkRequest) (resp : LinkResponse)
    (h : (read_item env request).result = HandlerResult.ok resp) :
    resp.message = "Success" ∧
    (∀ r, resp.solution.readability = some r →
      env.extract resp.solution.response = some r.content) := by
  rcases hg : gotoOutcome env request with s₁ | s₁
  · rcases hd : domOutcome env request with s₂ | s₂
    · rcases hi : idleOutcome env request with s₃ | s₃
      · by_cases ht : env.pageTitle ∈ CHALLENGE_TITLES
        · rcases hs : solveOutcome env request with s₄ | s₄
          · cases hf : env.solverFails
            · rw [run_solved hg hd hi ht hs hf, assemble_result] at h
              injection h with h2
              subst h2
              refine ⟨rfl, ?_⟩
              cases hE : request.enable_readability
              · simp [readabilityOf, hE]
              · cases hx : env.extract env.pageContent
                · simp [readabilityOf, hE, hx]
                · simp [readabilityOf, hE, hx]
            · rw [run_solver_error hg hd hi ht hs hf] at h
              simp at h
          · rw [run_solve_timeout hg hd hi ht hs] at h
            simp at h
        · rw [run_no_challenge hg hd hi ht, assemble_result] at h
          injection h with h2
          subst h2
          refine ⟨rfl, ?_⟩
          cases hE : request.enable_readability
          · simp [readabilityOf, hE]
          · cases hx : env.extract env.pageContent
            · simp [readabilityOf, hE, hx]
            · simp [readabilityOf, hE, hx]
      · rw [run_idle_timeout hg hd hi] at h
        simp at h
    · rw [run_dom_timeout hg hd] at h
      simp at h
  · rw [run_goto_timeout hg] at h
    simp at h

/-- C10 witness: under `envRead` the response's readability content equals
the extraction function applied to the returned `solution.response`. -/
theorem C10_witness :
    envRead.extract respRead.solution.response = some "X<html>hi</html>" :=
  (C10_thm envRead reqRead respRead (by decide)).2 ⟨"X<html>hi</html>"⟩
    (by decide)
